import Mathlib

/-!
A shallow embedding of the Japanese conversation-exam application
(source file `src/app.py`) and proofs about its session state machine.

The embedding mirrors the source top to bottom:
  * the constant data (`OPI_PHASES`, `PHASE_ORDER`),
  * the pure request-building and collaborator-calling functions
    (`safe_generate_content`, `get_opi_question`, `evaluate_response`,
    `speech_to_text`, `save_result`), with each external network service
    (generation backend, speech recognizer, spreadsheet client) passed in
    as an explicit oracle function so the control flow of the source is
    preserved while the collaborators stay abstract,
  * one full rerun of the script body (`run_script`): the sidebar (mode
    radio, admin-gated exam-settings form, reset button) followed by the
    main area dispatched on the session state (`setting`, `interview`,
    `finished`).

Statefulness is made explicit: `AppState` carries exactly the fields the
source keeps in `st.session_state` (`history`, `exam_state`,
`phase_index`, `exam_config`, `student_info`, `cefr_level`, the `saved`
flag) plus `audio_slot`, which models the value retained by the
`st.audio_input` widget.  The widget in the source is created without a
`key=` argument, so its identity is constant across reruns: a recording
persists in the widget (and is returned again by `st.audio_input`) on the
automatic rerun that follows a processed answer, until a run completes
without rendering the widget.  `st.rerun()` ends a script run early; runs
that end this way are modelled by the `Except`-error arm of a stage.
-/

set_option maxHeartbeats 1000000

namespace ExamBot

/-- Role of one turn in the history, matching the `"role"` strings of the
source dictionaries. -/
inductive Role
  | examiner
  | student
  | grade
deriving DecidableEq, Repr, BEq

/-- Python string stored in the `"role"` key of a history entry. -/
def roleName : Role → String
  | Role.examiner => "examiner"
  | Role.student => "student"
  | Role.grade => "grade"

/-- One entry of `st.session_state.history`.  Examiner turns carry a
`"phase"` key; student and grade turns are appended without one, hence the
`Option`. -/
structure Turn where
  role : Role
  text : String
  phase : Option String
deriving DecidableEq, Repr, BEq

/-- Value of `st.session_state.exam_state`. -/
inductive ExamState
  | setting
  | interview
  | finished
deriving DecidableEq, Repr, BEq

/-- The `exam_config` dictionary.  The practice-mode value is the literal
`{"is_exam": False}`, so every other key is optional. -/
structure ExamConfig where
  is_exam : Bool
  year : Option Nat
  etype : Option String
  cls : Option String
  level : Option String
  sheet_url : Option String
deriving DecidableEq, Repr, BEq

/-- The practice-mode configuration `{"is_exam": False}` (line 189 of the
source): no year, type, class, level or sheet URL. -/
def practice_config : ExamConfig :=
  { is_exam := false
    year := none
    etype := none
    cls := none
    level := none
    sheet_url := none }

/-- The `student_info` dictionary. -/
structure StudentInfo where
  name : String
  cls : String
  id : String
deriving DecidableEq, Repr, BEq

/-- The session-scoped mutable state.  Fields map one-to-one onto the
`st.session_state` entries of the source; `student_info` and `cefr_level`
are stored directly (the source leaves them absent before the first
session start, but they are only ever read after being assigned).
`audio_slot` is the retained value of the un-keyed `st.audio_input`
widget. -/
structure AppState where
  history : List Turn
  exam_state : ExamState
  phase_index : Nat
  exam_config : ExamConfig
  student_info : StudentInfo
  cefr_level : String
  saved : Bool
  audio_slot : Option String
deriving DecidableEq, Repr, BEq

/-- State right after the initializers at lines 172-175 run on a fresh
session (also the result of `st.session_state.clear()` followed by a
rerun). -/
def initState : AppState :=
  { history := []
    exam_state := ExamState.setting
    phase_index := 0
    exam_config := practice_config
    student_info := ⟨"", "", ""⟩
    cefr_level := ""
    saved := false
    audio_slot := none }

/-- The `OPI_PHASES` dictionary (line 17). -/
def OPI_PHASES : List (String × String) :=
  [("warmup", "導入 (Warm-up)"), ("level_check", "レベルチェック"),
   ("probe", "突き上げ (Probe)"), ("wind_down", "終結 (Wind-down)")]

/-- The `PHASE_ORDER` list (line 23): `level_check` appears twice by
design. -/
def PHASE_ORDER : List String :=
  ["warmup", "level_check", "level_check", "probe", "wind_down"]

/-- Lookup `OPI_PHASES[p]`.  The source would raise `KeyError` on a
missing key; every key ever used comes from `PHASE_ORDER`, where the
lookup succeeds, so the `none` case is mapped to the empty string. -/
def phaseLabel (p : String) : String :=
  match OPI_PHASES.find? (fun kv => kv.fst == p) with
  | some kv => kv.snd
  | none => ""

/-- Content handed to the generation collaborator: either a plain string
(evaluation and summary prompts) or a prompt plus attached textbook
documents (question prompts, `content = [prompt] + files`). -/
inductive PromptContent
  | text (s : String)
  | withDocs (prompt : String) (docs : List String)
deriving DecidableEq

/-- The function `safe_generate_content` (lines 55-68).  `backend m c`
models `genai.GenerativeModel(m).generate_content(c).text`: `ok` is the
generated text, `error` the message of the raised exception.  On a
first-candidate failure the source falls back to `"gemini-1.5-pro"`, and
if that fails too it returns the degraded string built from `e` — the
exception of the FIRST candidate, which is the variable bound by the
outer `except`. -/
def safe_generate_content (backend : String → PromptContent → Except String String)
    (c : PromptContent) : String :=
  match backend "gemini-1.5-flash" c with
  | Except.ok t => t
  | Except.error e =>
    match backend "gemini-1.5-pro" c with
    | Except.ok t => t
    | Except.error _ => "生成エラー: " ++ e

/-- The history serialization of `get_opi_question` (line 72): join of
`"role: text"` over the entries whose role is `examiner` or `student`. -/
def history_text (history : List Turn) : String :=
  String.intercalate "\n"
    ((history.filter (fun h => h.role == Role.examiner || h.role == Role.student)).map
      (fun h => roleName h.role ++ ": " ++ h.text))

/-- The `mode_instruction` string (lines 74-82). -/
def mode_instruction (cfg : ExamConfig) : String :=
  if cfg.is_exam then
    "これは「" ++ toString (cfg.year.getD 0) ++ "年度 " ++ cfg.etype.getD ""
      ++ "」の試験です。\n対象クラス: " ++ cfg.cls.getD ""
      ++ "\n厳格な試験官として振る舞ってください。"
  else
    "これは練習モードです。優しく指導してください。"

/-- Everything of the question prompt (lines 84-98) that precedes the
embedded conversation history. -/
def opi_prompt_head (cefr phase : String) (info : StudentInfo) (cfg : ExamConfig) : String :=
  "あなたはOPI準拠の日本語会話テスターです。\n" ++ mode_instruction cfg
    ++ "\n\n学習者: " ++ info.name ++ " (目標: " ++ cefr ++ ")\n現在のフェーズ: "
    ++ phaseLabel phase ++ "\n\n【これまでの会話】\n"

/-- Everything of the question prompt that follows the embedded
conversation history. -/
def opi_prompt_tail (phase : String) : String :=
  "\n\n【指示】\n1. 提供された教科書資料の内容（語彙・文型）を活用して質問を作成してください。\n2. フェーズ進行("
    ++ phaseLabel phase ++ ")を厳守してください。\n3. 質問文のみを出力してください。"

/-- The full question prompt of `get_opi_question`. -/
def opi_prompt (cefr phase : String) (history : List Turn) (info : StudentInfo)
    (cfg : ExamConfig) : String :=
  opi_prompt_head cefr phase info cfg ++ history_text history ++ opi_prompt_tail phase

/-- The function `get_opi_question` (lines 71-103): build the prompt,
attach the textbook files, dispatch through `safe_generate_content`. -/
def get_opi_question (backend : String → PromptContent → Except String String)
    (cefr phase : String) (history : List Turn) (info : StudentInfo)
    (textbooks : List String) (cfg : ExamConfig) : String :=
  safe_generate_content backend
    (PromptContent.withDocs (opi_prompt cefr phase history info cfg) textbooks)

/-- The evaluation prompt of `evaluate_response` (lines 107-113); note the
raw phase key (not the human-readable label) is interpolated. -/
def eval_prompt (question answer cefr phase : String) : String :=
  "評価者として分析してください。\n目標: " ++ cefr ++ ", フェーズ: " ++ phase
    ++ "\n質問: " ++ question ++ "\n回答: " ++ answer
    ++ "\n出力: Markdown箇条書きで 1.レベル判定(達成/未達) 2.文法・語彙の正確さ 3.アドバイス"

/-- The function `evaluate_response` (lines 106-114). -/
def evaluate_response (backend : String → PromptContent → Except String String)
    (question answer cefr phase : String) : String :=
  safe_generate_content backend (PromptContent.text (eval_prompt question answer cefr phase))

/-- The function `speech_to_text` (lines 117-132).  `creds` models
`get_gcp_credentials()` returning a usable credential; `recognize a`
models `client.recognize(...)` on audio `a`: `ok` carries the transcript
alternatives list (`[]` when `res.results` is empty), `error` the raised
exception's message.  The return value is the `(transcript, error)` pair
of the source. -/
def speech_to_text (creds : Bool) (recognize : String → Except String (List String))
    (a : String) : Option String × Option String :=
  if !creds then (none, some "認証エラー")
  else
    match recognize a with
    | Except.error e => (none, some e)
    | Except.ok [] => (none, some "聞き取れませんでした")
    | Except.ok (t :: _) => (some t, none)

/-- Python truthiness of the transcript variable `text`: `None` and the
empty string are falsy. -/
def truthy : Option String → Bool
  | none => false
  | some t => !(t == "")

/-- Python `str(...)` of an optional string (`str(None) = "None"`), used
for the `err` part of the recognition error message. -/
def optStr : Option String → String
  | none => "None"
  | some s => s

/-- Error message returned by `save_result` when the configuration holds
no spreadsheet URL (line 141). -/
def url_error_msg : String :=
  "スプレッドシートのURLが設定されていません。管理者に連絡してください。"

/-- The `exam_name` expression of `save_result` (line 149). -/
def exam_name (cfg : ExamConfig) : String :=
  if cfg.is_exam then toString (cfg.year.getD 0) ++ " " ++ cfg.etype.getD ""
  else "練習モード"

/-- Python `str(history)` as fed to the summary prompt; the exact
serialization shape is irrelevant to every property proved here, only
that it is a pure function of the history. -/
def historyRepr (h : List Turn) : String :=
  String.intercalate ", " (h.map (fun t => roleName t.role ++ ": " ++ t.text))

/-- The function `save_result` (lines 135-165).  `open_sheet url` models
`gspread.authorize(...)` plus `client.open_by_url(url).sheet1` (both
inside the `try`), `persist url row` models `sheet.append_row(row)`.  The
result is the `(ok, message)` pair of the source together with the row
appended to the sheet (`none` when nothing was appended), so that the
write effect is observable. -/
def save_result (creds : Bool) (open_sheet : String → Except String Unit)
    (backend : String → PromptContent → Except String String)
    (persist : String → List String → Except String Unit) (now : String)
    (info : StudentInfo) (level : String) (cfg : ExamConfig)
    (history : List Turn) : (Bool × String) × Option (List String) :=
  if !creds then ((false, "認証エラー"), none)
  else
    match cfg.sheet_url with
    | none => ((false, url_error_msg), none)
    | some url =>
      if url == "" then ((false, url_error_msg), none)
      else
        match open_sheet url with
        | Except.error e => ((false, e), none)
        | Except.ok _ =>
          let summary := safe_generate_content backend
            (PromptContent.text ("以下の会話ログから総評を100文字で:\n" ++ historyRepr history))
          let row := [now, exam_name cfg, cfg.cls.getD "-", info.cls, info.id,
            info.name, level, summary]
          match persist url row with
          | Except.ok _ => ((true, summary), some row)
          | Except.error e => ((false, e), none)

/-- The exam-settings form fields (lines 199-212). -/
structure ExamForm where
  year : Nat
  etype : String
  cls : String
  level : String
  sheet_url : String
deriving DecidableEq, Repr

/-- Everything one script run consumes: widget values chosen by the user
during the run, and the oracles for the external collaborators.  `pwd_ok`
is the result of the `pwd == ADMIN_PASSWORD` comparison; `form_submit`
is `some f` when the exam-settings form was submitted this run;
`new_audio` is `some a` when the user recorded new audio this run (when
`none`, the widget keeps returning the retained `audio_slot` value);
`gcp_creds` is shared by speech recognition and persistence exactly as
`get_gcp_credentials()` is in the source. -/
structure Inputs where
  mode_exam : Bool
  pwd_ok : Bool
  form_submit : Option ExamForm
  reset_clicked : Bool
  start_clicked : Bool
  s_name : String
  s_cls : String
  s_id : String
  selected_cefr : String
  new_audio : Option String
  ffmpeg_ok : Bool
  end_clicked : Bool
  textbooks : List String
  backend : String → PromptContent → Except String String
  gcp_creds : Bool
  recognize : String → Except String (List String)
  open_sheet : String → Except String Unit
  persist : String → List String → Except String Unit
  now : String

/-- Observable outcome of one script run: the next session state, the
messages surfaced to the user (`st.error` / `st.success` / `st.warning` /
`st.toast` texts, in emission order), the number of `save_result` calls
made, and the rows actually appended to the spreadsheet. -/
structure RunOut where
  state : AppState
  msgs : List String
  save_calls : Nat
  rows : List (List String)
deriving Repr

/-- A stage of the script: `Except.error` means the stage ended the run
with `st.rerun()` (nothing further executes this run), `Except.ok` means
the script continues. -/
abbrev Stage := Except RunOut RunOut

/-- Collapse a finished stage (nothing runs after the last stage, so the
rerun/continue distinction no longer matters). -/
def stage_out : Stage → RunOut
  | Except.error r => r
  | Except.ok r => r

/-- Effect of the mode radio (lines 186-189): selecting the practice mode
replaces `exam_config` by the practice literal; selecting the exam mode
assigns nothing. -/
def radio_state (inp : Inputs) (s : AppState) : AppState :=
  if !inp.mode_exam then { s with exam_config := practice_config } else s

/-- The sidebar (lines 178-243): the mode radio assignment, the
admin-gated exam-settings form, and the reset button.  Selecting the
practice mode replaces `exam_config` by the practice literal (line 189).
A valid form submission stores the full configuration, resets
`exam_state` and `history`, and ends the run with `st.rerun()`
(line 229); an empty URL only surfaces an error (line 216).  The reset
button clears the whole session state and ends the run (lines 241-243). -/
def sidebar (inp : Inputs) (s : AppState) : Stage :=
  let s1 := radio_state inp s
  if inp.mode_exam && inp.pwd_ok then
    match inp.form_submit with
    | some f =>
      if f.sheet_url == "" then
        if inp.reset_clicked then Except.error ⟨initState, ["URLを入力してください"], 0, []⟩
        else Except.ok ⟨s1, ["URLを入力してください"], 0, []⟩
      else
        Except.error ⟨{ s1 with
          exam_config := { is_exam := true
                           year := some f.year
                           etype := some f.etype
                           cls := some f.cls
                           level := some f.level
                           sheet_url := some f.sheet_url }
          exam_state := ExamState.setting
          history := [] }, ["試験モードを開始しました！"], 0, []⟩
    | none =>
      if inp.reset_clicked then Except.error ⟨initState, [], 0, []⟩
      else Except.ok ⟨s1, [], 0, []⟩
  else
    if inp.reset_clicked then Except.error ⟨initState, [], 0, []⟩
    else Except.ok ⟨s1, [], 0, []⟩

/-- The session-start side effect shared by the practice and exam start
buttons (lines 268-275 and 290-298): store learner info and level, reset
the phase cursor to 0, enter the interview state, generate the phase-0
question and append it as an examiner turn, then `st.rerun()`. -/
def start_session (inp : Inputs) (s : AppState) (cefr : String) : AppState :=
  let info : StudentInfo := ⟨inp.s_name, inp.s_cls, inp.s_id⟩
  let current := PHASE_ORDER.getD 0 ""
  let q := get_opi_question inp.backend cefr current [] info inp.textbooks s.exam_config
  { s with student_info := info
           cefr_level := cefr
           phase_index := 0
           exam_state := ExamState.interview
           history := s.history ++ [⟨Role.examiner, q, some current⟩] }

/-- The start screen (lines 255-298).  Practice mode: the start button
requires a non-empty name.  Exam mode: the start button is only rendered
once name and student id are non-empty, and the level is taken from the
stored exam configuration. -/
def main_setting (inp : Inputs) (s : AppState) : Stage :=
  if !s.exam_config.is_exam then
    if inp.start_clicked then
      if inp.s_name == "" then Except.ok ⟨s, ["名前を入力してください"], 0, []⟩
      else Except.error ⟨start_session inp s inp.selected_cefr, [], 0, []⟩
    else Except.ok ⟨s, [], 0, []⟩
  else
    if inp.s_name == "" || inp.s_id == "" then
      Except.ok ⟨s, ["⚠️ 全ての項目を入力すると、開始ボタンが表示されます。"], 0, []⟩
    else if inp.start_clicked then
      Except.error ⟨start_session inp s (s.exam_config.level.getD ""), [], 0, []⟩
    else Except.ok ⟨s, [], 0, []⟩

/-- Whether the answer-recording widget is rendered: the last history
entry is an examiner turn (line 314). -/
def pending_question (s : AppState) : Bool :=
  match s.history.getLast? with
  | some t => t.role == Role.examiner
  | none => false

/-- The value `audio_val` returned by `st.audio_input` (line 315): a
newly captured recording if the user recorded one this run, otherwise the
value retained by the widget from a previous run.  The widget has no
`key=` argument in the source, so advancing the phase does NOT invalidate
a retained recording. -/
def audio_val (inp : Inputs) (s : AppState) : Option String :=
  match inp.new_audio with
  | some a => some a
  | none => s.audio_slot

/-- Answer processing (lines 317-361), entered with `audio_val = some a`
(the widget now retains `a`).  FFmpeg conversion failure surfaces an
error and changes nothing else.  A truthy transcript appends the student
turn, evaluates the answer against the pending question
(`history[-2]` after the append, i.e. the last turn before it), appends
the grade turn, increments the phase cursor, and either generates and
appends the next question (cursor still in range) or transitions to
`finished`; both paths end the run with `st.rerun()`.  A falsy
transcript only surfaces the recognition error. -/
def process_answer (inp : Inputs) (s : AppState) (a : String) : Stage :=
  if !inp.ffmpeg_ok then
    Except.ok ⟨s, ["音声変換に失敗しました。FFmpegがインストールされているか確認してください。"], 0, []⟩
  else
    let tr := speech_to_text inp.gcp_creds inp.recognize a
    if truthy tr.fst then
      let t := tr.fst.getD ""
      let lastQ := ((s.history.getLast?).map Turn.text).getD ""
      let qPhase := ((s.history.getLast?).bind Turn.phase).getD ""
      let evalText := evaluate_response inp.backend lastQ t s.cefr_level qPhase
      let h2 := s.history ++ [⟨Role.student, t, none⟩, ⟨Role.grade, evalText, none⟩]
      if s.phase_index + 1 < PHASE_ORDER.length then
        let nextP := PHASE_ORDER.getD (s.phase_index + 1) ""
        let nextQ := get_opi_question inp.backend s.cefr_level nextP h2
          s.student_info inp.textbooks s.exam_config
        Except.error ⟨{ s with
          history := h2 ++ [⟨Role.examiner, nextQ, some nextP⟩]
          phase_index := s.phase_index + 1 }, [], 0, []⟩
      else
        Except.error ⟨{ s with
          history := h2
          phase_index := s.phase_index + 1
          exam_state := ExamState.finished }, [], 0, []⟩
    else
      Except.ok ⟨s, ["音声認識エラー: " ++ optStr tr.snd], 0, []⟩

/-- The interview screen (lines 301-361).  The recording widget is only
rendered while a question is pending; when a run completes without
rendering it, the retained recording is dropped (the hosting framework
discards the state of widgets absent from a completed run). -/
def main_interview (inp : Inputs) (s : AppState) : Stage :=
  if pending_question s then
    match audio_val inp s with
    | some a => process_answer inp { s with audio_slot := some a } a
    | none => Except.ok ⟨{ s with audio_slot := none }, [], 0, []⟩
  else Except.ok ⟨{ s with audio_slot := none }, [], 0, []⟩

/-- The `save_result` call of the finished screen (line 369), applied to
the session's stored student info, level, configuration and history. -/
def save_attempt (inp : Inputs) (s : AppState) : (Bool × String) × Option (List String) :=
  save_result inp.gcp_creds inp.open_sheet inp.backend inp.persist
    inp.now s.student_info s.cefr_level s.exam_config s.history

/-- The finished screen (lines 364-374).  The save block runs only while
the `saved` flag is absent; the flag is set ONLY when `save_result`
reports success.  The end button clears the whole session state and ends
the run. -/
def main_finished (inp : Inputs) (s : AppState) : Stage :=
  if !s.saved then
    if (save_attempt inp s).fst.fst then
      if inp.end_clicked then
        Except.error ⟨initState, ["✅ データが送信されました"], 1, (save_attempt inp s).snd.toList⟩
      else
        Except.ok ⟨{ s with saved := true }, ["✅ データが送信されました"], 1,
          (save_attempt inp s).snd.toList⟩
    else
      if inp.end_clicked then
        Except.error ⟨initState, ["保存エラー: " ++ (save_attempt inp s).fst.snd], 1, []⟩
      else Except.ok ⟨s, ["保存エラー: " ++ (save_attempt inp s).fst.snd], 1, []⟩
  else
    if inp.end_clicked then Except.error ⟨initState, [], 0, []⟩
    else Except.ok ⟨s, [], 0, []⟩

/-- The main area (lines 246-374), dispatched on the (possibly
sidebar-updated) `exam_state`.  The setting and finished screens never
render the recording widget, so entering them on a completed run drops
the retained recording. -/
def main_dispatch (inp : Inputs) (s1 : AppState) : RunOut :=
  match s1.exam_state with
  | ExamState.setting => stage_out (main_setting inp { s1 with audio_slot := none })
  | ExamState.interview => stage_out (main_interview inp s1)
  | ExamState.finished => stage_out (main_finished inp { s1 with audio_slot := none })

/-- One full run of the script body: sidebar first (its `st.rerun()` exits
skip the main area entirely), then the main area. -/
def run_script (inp : Inputs) (s : AppState) : RunOut :=
  match sidebar inp s with
  | Except.error r => r
  | Except.ok r =>
    { main_dispatch inp r.state with msgs := r.msgs ++ (main_dispatch inp r.state).msgs }

/-- The phase caption of the interview screen (line 305),
`OPI_PHASES[PHASE_ORDER[phase_index]]`: `none` models the `IndexError`
the source would raise on an out-of-range cursor. -/
def interview_phase_caption (s : AppState) : Option String :=
  (PHASE_ORDER.get? s.phase_index).map phaseLabel

/-- Number of student turns in a history. -/
def countStudent (h : List Turn) : Nat :=
  (h.filter (fun t => t.role == Role.student)).length

/-- States reachable from a fresh session by any sequence of script runs
with arbitrary user inputs and collaborator behaviours. -/
inductive Reachable : AppState → Prop
  | init : Reachable initState
  | step {s : AppState} (inp : Inputs) : Reachable s → Reachable (run_script inp s).state

/-- The state invariant: the phase cursor never exceeds the schedule
length, sits strictly below it while interviewing, and equals it exactly
in the finished state. -/
def Inv (s : AppState) : Prop :=
  s.phase_index ≤ PHASE_ORDER.length ∧
  (s.exam_state = ExamState.interview → s.phase_index < PHASE_ORDER.length) ∧
  (s.exam_state = ExamState.finished → s.phase_index = PHASE_ORDER.length)

/-- The state handed to `main_setting` or `main_finished` by
`run_script` when the sidebar took no early exit: the mode-radio effect
applied, then the recording-widget slot dropped. -/
def finish_state (inp : Inputs) (s : AppState) : AppState :=
  { radio_state inp s with audio_slot := none }

/-! Concrete fixtures used to evaluate the embedding on explicit inputs:
an always-succeeding generation backend, recognizer and spreadsheet
client, and a handful of session states. -/

/-- Generation backend whose first candidate always succeeds. -/
def okBackend : String → PromptContent → Except String String :=
  fun _ _ => Except.ok "質問文"

/-- Generation backend on which every candidate model raises, with
distinct error messages for the first and second candidates. -/
def failBothBackend : String → PromptContent → Except String String :=
  fun m _ =>
    if m == "gemini-1.5-flash" then Except.error "flash失敗"
    else Except.error "pro失敗"

/-- Recognizer that always returns one non-empty transcript. -/
def okRecognize : String → Except String (List String) :=
  fun _ => Except.ok ["はい、そうです"]

/-- Baseline inputs: no user action, every collaborator succeeds. -/
def baseInputs : Inputs :=
  { mode_exam := false
    pwd_ok := false
    form_submit := none
    reset_clicked := false
    start_clicked := false
    s_name := ""
    s_cls := ""
    s_id := ""
    selected_cefr := "A2"
    new_audio := none
    ffmpeg_ok := true
    end_clicked := false
    textbooks := []
    backend := okBackend
    gcp_creds := true
    recognize := okRecognize
    open_sheet := fun _ => Except.ok ()
    persist := fun _ _ => Except.ok ()
    now := "2026-10-12 00:00" }

/-- Inputs that press the practice-mode start button with a name filled
in. -/
def startInputs : Inputs :=
  { baseInputs with start_clicked := true, s_name := "山田 花子" }

/-- An interview state right after the phase-0 question was asked. -/
def interviewState0 : AppState :=
  { history := [⟨Role.examiner, "自己紹介をしてください", some "warmup"⟩]
    exam_state := ExamState.interview
    phase_index := 0
    exam_config := practice_config
    student_info := ⟨"山田 花子", "2年A組", "L2025-001"⟩
    cefr_level := "A2"
    saved := false
    audio_slot := none }

/-- A fully populated exam configuration. -/
def examConfig0 : ExamConfig :=
  { is_exam := true
    year := some 2026
    etype := some "1学期中間試験"
    cls := some "2年A組"
    level := some "A2"
    sheet_url := some "https://docs.google.com/spreadsheets/d/abc" }

/-- An exam-mode interview state in the middle of a session: one answer
already processed, second question pending. -/
def examMidState : AppState :=
  { history := [⟨Role.examiner, "質問1", some "warmup"⟩, ⟨Role.student, "回答1", none⟩,
      ⟨Role.grade, "評価1", none⟩, ⟨Role.examiner, "質問2", some "level_check"⟩]
    exam_state := ExamState.interview
    phase_index := 1
    exam_config := examConfig0
    student_info := ⟨"山田 太郎", "2年A組", "15"⟩
    cefr_level := "A2"
    saved := false
    audio_slot := none }

/-- A finished exam session whose result has not been saved yet. -/
def finishedState0 : AppState :=
  { examMidState with exam_state := ExamState.finished, phase_index := 5 }

/-- Inputs whose spreadsheet append always fails, with the exam-mode
radio selected so the stored exam configuration is kept. -/
def failPersistInputs : Inputs :=
  { baseInputs with mode_exam := true, persist := fun _ _ => Except.error "権限がありません" }

/-- First scripted run of the stale-audio scenario: a recording is captured
and processed for phase 0. -/
def c1_run1 : RunOut := run_script { baseInputs with new_audio := some "audio-0" } interviewState0

/-- The automatic rerun that follows: no new recording, but the widget
still holds the phase-0 audio. -/
def c1_run2 : RunOut := run_script baseInputs c1_run1.state

/-- Inputs that submit a new recording whose recognition fails. -/
def sttFailInputs : Inputs :=
  { baseInputs with
    new_audio := some "audio-x"
    recognize := fun _ => Except.error "タイムアウト" }


def emptyUrlForm : ExamForm := ⟨2026, "1学期中間試験", "2年A組", "A2", ""⟩

def fullForm : ExamForm :=
  ⟨2026, "1学期中間試験", "2年A組", "A2", "https://docs.google.com/spreadsheets/d/abc"⟩

def examFormEmptyInputs : Inputs :=
  { baseInputs with
    mode_exam := true
    pwd_ok := true
    form_submit := some emptyUrlForm }

def examFormValidInputs : Inputs :=
  { baseInputs with
    mode_exam := true
    pwd_ok := true
    form_submit := some fullForm }

/-! General lemmas about the stages of one script run. -/

theorem phase_order_length : PHASE_ORDER.length = 5 := rfl

theorem countStudent_append (h l : List Turn) :
    countStudent (h ++ l) = countStudent h + countStudent l := by
  simp [countStudent, List.filter_append]

theorem radio_state_fields (inp : Inputs) (s : AppState) :
    (radio_state inp s).exam_state = s.exam_state ∧
    (radio_state inp s).phase_index = s.phase_index ∧
    (radio_state inp s).history = s.history ∧
    (radio_state inp s).saved = s.saved ∧
    (radio_state inp s).audio_slot = s.audio_slot ∧
    (radio_state inp s).student_info = s.student_info ∧
    (radio_state inp s).cefr_level = s.cefr_level ∧
    (inp.mode_exam = true → radio_state inp s = s) ∧
    (inp.mode_exam = false → (radio_state inp s).exam_config = practice_config) := by
  unfold radio_state
  split <;> simp_all

theorem sidebar_no_action (inp : Inputs) (s : AppState)
    (hr : inp.reset_clicked = false) (hfs : inp.form_submit = none) :
    sidebar inp s = Except.ok ⟨radio_state inp s, [], 0, []⟩ := by
  unfold sidebar
  rw [hfs]
  split <;> simp [hr]

theorem run_script_setting (inp : Inputs) (s : AppState)
    (hf : s.exam_state = ExamState.setting)
    (hr : inp.reset_clicked = false) (hfs : inp.form_submit = none) :
    run_script inp s = stage_out (main_setting inp (finish_state inp s)) := by
  unfold run_script
  rw [sidebar_no_action inp s hr hfs]
  have hst : (radio_state inp s).exam_state = ExamState.setting := by
    rw [(radio_state_fields inp s).1, hf]
  unfold main_dispatch
  simp only [hst, finish_state]
  rfl

theorem run_script_interview (inp : Inputs) (s : AppState)
    (hf : s.exam_state = ExamState.interview)
    (hr : inp.reset_clicked = false) (hfs : inp.form_submit = none) :
    run_script inp s = stage_out (main_interview inp (radio_state inp s)) := by
  unfold run_script
  rw [sidebar_no_action inp s hr hfs]
  have hst : (radio_state inp s).exam_state = ExamState.interview := by
    rw [(radio_state_fields inp s).1, hf]
  unfold main_dispatch
  simp only [hst]
  rfl

theorem run_script_finished (inp : Inputs) (s : AppState)
    (hf : s.exam_state = ExamState.finished)
    (hr : inp.reset_clicked = false) (hfs : inp.form_submit = none) :
    run_script inp s = stage_out (main_finished inp (finish_state inp s)) := by
  unfold run_script
  rw [sidebar_no_action inp s hr hfs]
  have hst : (radio_state inp s).exam_state = ExamState.finished := by
    rw [(radio_state_fields inp s).1, hf]
  unfold main_dispatch
  simp only [hst, finish_state]
  rfl

theorem sidebar_spec (inp : Inputs) (s : AppState) :
    sidebar inp s = Except.ok ⟨{ s with exam_config := practice_config }, [], 0, []⟩ ∨
    sidebar inp s = Except.ok ⟨s, [], 0, []⟩ ∨
    sidebar inp s = Except.ok ⟨s, ["URLを入力してください"], 0, []⟩ ∨
    (∃ m, sidebar inp s = Except.error ⟨initState, m, 0, []⟩) ∨
    (∃ f : ExamForm, sidebar inp s = Except.error ⟨{ s with
        exam_config := { is_exam := true
                         year := some f.year
                         etype := some f.etype
                         cls := some f.cls
                         level := some f.level
                         sheet_url := some f.sheet_url }
        exam_state := ExamState.setting
        history := [] }, ["試験モードを開始しました！"], 0, []⟩) := by
  unfold sidebar radio_state
  repeat' split
  all_goals simp_all
  all_goals aesop

theorem start_session_fields (inp : Inputs) (s : AppState) (cefr : String) :
    (start_session inp s cefr).exam_state = ExamState.interview ∧
    (start_session inp s cefr).phase_index = 0 ∧
    (start_session inp s cefr).saved = s.saved ∧
    (start_session inp s cefr).exam_config = s.exam_config ∧
    (∃ q, (start_session inp s cefr).history
      = s.history ++ [⟨Role.examiner, q, some "warmup"⟩]) := by
  unfold start_session
  simp [PHASE_ORDER]

theorem main_setting_spec (inp : Inputs) (s : AppState) :
    (∃ m, main_setting inp s = Except.ok ⟨s, m, 0, []⟩) ∨
    (∃ cefr, main_setting inp s = Except.error ⟨start_session inp s cefr, [], 0, []⟩) := by
  unfold main_setting
  repeat' split
  all_goals simp_all

theorem main_interview_spec (inp : Inputs) (s : AppState) :
    (∃ s1 m, main_interview inp s = Except.ok ⟨s1, m, 0, []⟩ ∧
       s1.exam_state = s.exam_state ∧ s1.phase_index = s.phase_index ∧
       s1.history = s.history ∧ s1.saved = s.saved ∧
       s1.exam_config = s.exam_config ∧ s1.student_info = s.student_info ∧
       s1.cefr_level = s.cefr_level) ∨
    (∃ s1, main_interview inp s = Except.error ⟨s1, [], 0, []⟩ ∧
       s1.phase_index = s.phase_index + 1 ∧ s.phase_index + 1 < PHASE_ORDER.length ∧
       s1.exam_state = s.exam_state ∧ s1.saved = s.saved ∧
       s1.exam_config = s.exam_config ∧ s1.student_info = s.student_info ∧
       s1.cefr_level = s.cefr_level ∧
       (∃ t ev nq np, s1.history = s.history ++
         [⟨Role.student, t, none⟩, ⟨Role.grade, ev, none⟩, ⟨Role.examiner, nq, some np⟩])) ∨
    (∃ s1, main_interview inp s = Except.error ⟨s1, [], 0, []⟩ ∧
       s1.phase_index = s.phase_index + 1 ∧ ¬(s.phase_index + 1 < PHASE_ORDER.length) ∧
       s1.exam_state = ExamState.finished ∧ s1.saved = s.saved ∧
       s1.exam_config = s.exam_config ∧ s1.student_info = s.student_info ∧
       s1.cefr_level = s.cefr_level ∧
       (∃ t ev, s1.history = s.history ++
         [⟨Role.student, t, none⟩, ⟨Role.grade, ev, none⟩])) := by
  unfold main_interview process_answer
  repeat' split
  all_goals simp_all
  all_goals aesop

theorem main_finished_spec (inp : Inputs) (s : AppState) :
    (∃ b m calls rows, main_finished inp s = Except.ok ⟨{ s with saved := b }, m, calls, rows⟩) ∨
    (∃ m calls rows, main_finished inp s = Except.error ⟨initState, m, calls, rows⟩ ∧
       inp.end_clicked = true) := by
  unfold main_finished
  repeat' split
  all_goals (cases s; simp_all)

/-! Invariant of the reachable states. -/


theorem stage_out_ok (r : RunOut) : stage_out (Except.ok r) = r := rfl

theorem stage_out_error (r : RunOut) : stage_out (Except.error r) = r := rfl

theorem run_script_of_sidebar_error (inp : Inputs) (s : AppState) (r : RunOut)
    (hs : sidebar inp s = Except.error r) : run_script inp s = r := by
  unfold run_script
  rw [hs]

theorem run_script_of_sidebar_ok (inp : Inputs) (s : AppState) (r : RunOut)
    (hs : sidebar inp s = Except.ok r) :
    (run_script inp s).state = (main_dispatch inp r.state).state ∧
    (run_script inp s).save_calls = (main_dispatch inp r.state).save_calls ∧
    (run_script inp s).rows = (main_dispatch inp r.state).rows ∧
    (run_script inp s).msgs = r.msgs ++ (main_dispatch inp r.state).msgs := by
  unfold run_script
  rw [hs]
  exact ⟨rfl, rfl, rfl, rfl⟩

theorem inv_init : Inv initState := by
  unfold Inv initState PHASE_ORDER
  refine ⟨by decide, by decide, by decide⟩

theorem inv_main (inp : Inputs) (s1 : AppState) (h : Inv s1) :
    Inv (main_dispatch inp s1).state := by
  obtain ⟨h1, h2, h3⟩ := h
  unfold main_dispatch
  cases hse : s1.exam_state
  case setting =>
    simp only [hse]
    rcases main_setting_spec inp { s1 with audio_slot := none } with ⟨m, hm⟩ | ⟨cefr, hm⟩ <;>
      simp only [hse] at hm <;> rw [hm]
    · rw [stage_out_ok]
      exact ⟨h1, by simp, by simp⟩
    · rw [stage_out_error]
      refine ⟨?_, ?_, ?_⟩
      · rw [(start_session_fields inp _ cefr).2.1]
        exact Nat.zero_le _
      · intro _
        rw [(start_session_fields inp _ cefr).2.1, phase_order_length]
        omega
      · intro hfin
        rw [(start_session_fields inp _ cefr).1] at hfin
        simp at hfin
  case interview =>
    simp only [hse]
    have hlt := h2 hse
    rcases main_interview_spec inp s1 with ⟨s2, m, hm, e1, e2, _, _, _, _, _⟩ |
      ⟨s2, hm, e1, e2, e3, _, _, _, _, _⟩ | ⟨s2, hm, e1, e2, e3, _, _, _, _, _⟩ <;>
      rw [hm]
    · rw [stage_out_ok]
      refine ⟨?_, ?_, ?_⟩
      · rw [e2]; exact h1
      · intro _; rw [e2]; exact hlt
      · intro hfin; rw [e1, hse] at hfin; simp at hfin
    · rw [stage_out_error]
      refine ⟨?_, ?_, ?_⟩
      · rw [e1]; omega
      · intro _; rw [e1]; exact e2
      · intro hfin; rw [e3, hse] at hfin; simp at hfin
    · rw [stage_out_error]
      refine ⟨?_, ?_, ?_⟩
      · rw [e1]; omega
      · intro hint; rw [e3] at hint; simp at hint
      · intro _; rw [e1]; omega
  case finished =>
    simp only [hse]
    have heq := h3 hse
    rcases main_finished_spec inp { s1 with audio_slot := none } with
      ⟨b, m, calls, rows, hm⟩ | ⟨m, calls, rows, hm, _⟩ <;>
      simp only [hse] at hm <;> rw [hm]
    · rw [stage_out_ok]
      exact ⟨h1, by simp, by simp [heq]⟩
    · rw [stage_out_error]
      exact inv_init

theorem inv_step (inp : Inputs) (s : AppState) (h : Inv s) : Inv (run_script inp s).state := by
  rcases sidebar_spec inp s with hs | hs | hs | ⟨m, hs⟩ | ⟨f, hs⟩
  · rw [(run_script_of_sidebar_ok inp s _ hs).1]
    exact inv_main inp _ ⟨h.1, h.2.1, h.2.2⟩
  · rw [(run_script_of_sidebar_ok inp s _ hs).1]
    exact inv_main inp _ h
  · rw [(run_script_of_sidebar_ok inp s _ hs).1]
    exact inv_main inp _ h
  · rw [run_script_of_sidebar_error inp s _ hs]
    exact inv_init
  · rw [run_script_of_sidebar_error inp s _ hs]
    exact ⟨h.1, by simp, by simp⟩

theorem inv_reachable {s : AppState} (h : Reachable s) : Inv s := by
  induction h with
  | init => exact inv_init
  | step inp _ ih => exact inv_step inp _ ih



theorem countStudent_cons3 (h : List Turn) (t ev nq np : String) :
    countStudent (h ++ [⟨Role.student, t, none⟩, ⟨Role.grade, ev, none⟩,
      ⟨Role.examiner, nq, some np⟩]) = countStudent h + 1 := by
  rw [countStudent_append]
  rfl

theorem countStudent_cons2 (h : List Turn) (t ev : String) :
    countStudent (h ++ [⟨Role.student, t, none⟩, ⟨Role.grade, ev, none⟩])
      = countStudent h + 1 := by
  rw [countStudent_append]
  rfl

/-- Shape of one transition of `main_dispatch` as seen by the phase
cursor. -/
theorem step_shape_main (inp : Inputs) (s1 : AppState) :
    ((main_dispatch inp s1).state.phase_index = s1.phase_index ∨
      (main_dispatch inp s1).state.phase_index = s1.phase_index + 1 ∨
      (main_dispatch inp s1).state.phase_index = 0) ∧
    (s1.exam_state ≠ ExamState.interview →
      (main_dispatch inp s1).state.exam_state = ExamState.interview →
      (main_dispatch inp s1).state.phase_index = 0) ∧
    ((main_dispatch inp s1).state.phase_index = s1.phase_index + 1 →
      s1.exam_state = ExamState.interview ∧
      countStudent (main_dispatch inp s1).state.history = countStudent s1.history + 1) ∧
    (s1.exam_state = ExamState.interview → s1.phase_index < PHASE_ORDER.length →
      (main_dispatch inp s1).state.phase_index = PHASE_ORDER.length →
      (main_dispatch inp s1).state.exam_state = ExamState.finished) := by
  unfold main_dispatch
  cases hse : s1.exam_state <;> simp only [hse]
  case setting =>
    rcases main_setting_spec inp { s1 with audio_slot := none } with ⟨m, hm⟩ | ⟨cefr, hm⟩
    · simp only [hse] at hm
      rw [hm, stage_out_ok]
      refine ⟨Or.inl rfl, ?_, ?_, ?_⟩
      · intro _ hint
        exact absurd (show ExamState.setting = ExamState.interview from hint) (by decide)
      · intro hinc
        exact absurd (show s1.phase_index = s1.phase_index + 1 from hinc) (by omega)
      · intro hint
        exact absurd hint (by decide)
    · simp only [hse] at hm
      rw [hm, stage_out_error]
      obtain ⟨f1, f2, _, _, q, f5⟩ := start_session_fields inp
        { s1 with exam_state := ExamState.setting, audio_slot := none } cefr
      refine ⟨Or.inr (Or.inr f2), fun _ _ => f2, ?_, ?_⟩
      · intro hinc
        rw [f2] at hinc
        exact absurd hinc (by omega)
      · intro hint
        exact absurd hint (by decide)
  case interview =>
    rcases main_interview_spec inp s1 with ⟨s3, m, hm, e1, e2, e3, _, _, _, _⟩ |
      ⟨s3, hm, e1, e2, e3, _, _, _, _, hh⟩ | ⟨s3, hm, e1, e2, e3, _, _, _, _, hh⟩
    · rw [hm, stage_out_ok]
      refine ⟨Or.inl e2, fun hni _ => absurd rfl hni, ?_, ?_⟩
      · intro hinc
        rw [e2] at hinc
        exact absurd hinc (by omega)
      · intro _ hlt hlen
        rw [e2] at hlen
        exact absurd hlen (by omega)
    · obtain ⟨t, ev, nq, np, hhist⟩ := hh
      rw [hm, stage_out_error]
      refine ⟨Or.inr (Or.inl e1), fun hni => absurd rfl hni, ?_, ?_⟩
      · intro _
        refine ⟨trivial, ?_⟩
        rw [hhist]
        exact countStudent_cons3 _ _ _ _ _
      · intro _ _ hlen
        rw [e1] at hlen
        exact absurd hlen (by omega)
    · obtain ⟨t, ev, hhist⟩ := hh
      rw [hm, stage_out_error]
      refine ⟨Or.inr (Or.inl e1), fun hni => absurd rfl hni, ?_, fun _ _ _ => e3⟩
      intro _
      refine ⟨trivial, ?_⟩
      rw [hhist]
      exact countStudent_cons2 _ _ _
  case finished =>
    rcases main_finished_spec inp { s1 with audio_slot := none } with
      ⟨b, m, calls, rows, hm⟩ | ⟨m, calls, rows, hm, _⟩
    · simp only [hse] at hm
      rw [hm, stage_out_ok]
      refine ⟨Or.inl rfl, ?_, ?_, ?_⟩
      · intro _ hint
        exact absurd (show ExamState.finished = ExamState.interview from hint) (by decide)
      · intro hinc
        exact absurd (show s1.phase_index = s1.phase_index + 1 from hinc) (by omega)
      · intro hint
        exact absurd hint (by decide)
    · simp only [hse] at hm
      rw [hm, stage_out_error]
      refine ⟨Or.inr (Or.inr rfl), fun _ _ => rfl, ?_, ?_⟩
      · intro hinc
        exact absurd (show (0 : Nat) = s1.phase_index + 1 from hinc) (by omega)
      · intro hint
        exact absurd hint (by decide)



/-- Shape of one full script run as seen by the phase cursor. -/
theorem step_shape (inp : Inputs) (s : AppState) :
    ((run_script inp s).state.phase_index = s.phase_index ∨
      (run_script inp s).state.phase_index = s.phase_index + 1 ∨
      (run_script inp s).state.phase_index = 0) ∧
    (s.exam_state ≠ ExamState.interview →
      (run_script inp s).state.exam_state = ExamState.interview →
      (run_script inp s).state.phase_index = 0) ∧
    ((run_script inp s).state.phase_index = s.phase_index + 1 →
      s.exam_state = ExamState.interview ∧
      countStudent (run_script inp s).state.history = countStudent s.history + 1) ∧
    (s.exam_state = ExamState.interview → s.phase_index < PHASE_ORDER.length →
      (run_script inp s).state.phase_index = PHASE_ORDER.length →
      (run_script inp s).state.exam_state = ExamState.finished) := by
  rcases sidebar_spec inp s with hs | hs | hs | ⟨m, hs⟩ | ⟨f, hs⟩
  · rw [(run_script_of_sidebar_ok inp s _ hs).1]
    exact step_shape_main inp _
  · rw [(run_script_of_sidebar_ok inp s _ hs).1]
    exact step_shape_main inp _
  · rw [(run_script_of_sidebar_ok inp s _ hs).1]
    exact step_shape_main inp _
  · rw [run_script_of_sidebar_error inp s _ hs]
    refine ⟨Or.inr (Or.inr rfl),
      fun _ hint => absurd (show ExamState.setting = ExamState.interview from hint) (by decide),
      ?_, ?_⟩
    · intro hinc
      exact absurd (show (0 : Nat) = s.phase_index + 1 from hinc) (by omega)
    · intro _ _ hlen
      exact absurd (show (0 : Nat) = PHASE_ORDER.length from hlen) (by decide)
  · rw [run_script_of_sidebar_error inp s _ hs]
    refine ⟨Or.inl rfl, ?_, ?_, ?_⟩
    · intro _ hint
      exact absurd (show ExamState.setting = ExamState.interview from hint) (by decide)
    · intro hinc
      exact absurd (show s.phase_index = s.phase_index + 1 from hinc) (by omega)
    · intro _ hlt hlen
      exact absurd (show s.phase_index = PHASE_ORDER.length from hlen) (by omega)



theorem pending_question_congr (s1 s : AppState) (h : s1.history = s.history) :
    pending_question s1 = pending_question s := by
  unfold pending_question
  rw [h]

theorem audio_val_congr (inp : Inputs) (s1 s : AppState) (h : s1.audio_slot = s.audio_slot) :
    audio_val inp s1 = audio_val inp s := by
  unfold audio_val
  rw [h]

theorem main_setting_no_start (inp : Inputs) (s1 : AppState) (h : inp.start_clicked = false) :
    ∃ m, main_setting inp s1 = Except.ok ⟨s1, m, 0, []⟩ := by
  unfold main_setting
  repeat' split
  all_goals simp_all

theorem main_interview_no_audio (inp : Inputs) (s1 : AppState) (ha : audio_val inp s1 = none) :
    main_interview inp s1 = Except.ok ⟨{ s1 with audio_slot := none }, [], 0, []⟩ := by
  unfold main_interview
  split <;> simp [ha]

theorem sidebar_practice (inp : Inputs) (s : AppState)
    (hm : inp.mode_exam = false) (hr : inp.reset_clicked = false) :
    sidebar inp s = Except.ok ⟨{ s with exam_config := practice_config }, [], 0, []⟩ := by
  unfold sidebar radio_state
  simp [hm, hr]

theorem sidebar_form_empty (inp : Inputs) (s : AppState) (f : ExamForm)
    (hm : inp.mode_exam = true) (hp : inp.pwd_ok = true) (hf : inp.form_submit = some f)
    (hurl : f.sheet_url = "") (hr : inp.reset_clicked = false) :
    sidebar inp s = Except.ok ⟨s, ["URLを入力してください"], 0, []⟩ := by
  unfold sidebar radio_state
  simp [hm, hp, hf, hurl, hr]

theorem sidebar_form_valid (inp : Inputs) (s : AppState) (f : ExamForm)
    (hm : inp.mode_exam = true) (hp : inp.pwd_ok = true) (hf : inp.form_submit = some f)
    (hurl : f.sheet_url ≠ "") :
    sidebar inp s = Except.error ⟨{ s with
      exam_config := { is_exam := true
                       year := some f.year
                       etype := some f.etype
                       cls := some f.cls
                       level := some f.level
                       sheet_url := some f.sheet_url }
      exam_state := ExamState.setting
      history := [] }, ["試験モードを開始しました！"], 0, []⟩ := by
  unfold sidebar radio_state
  have hb : (f.sheet_url == "") = false := beq_eq_false_iff_ne.mpr hurl
  simp [hm, hp, hf, hb]

theorem main_dispatch_finished (inp : Inputs) (s1 : AppState)
    (h : s1.exam_state = ExamState.finished) :
    main_dispatch inp s1 = stage_out (main_finished inp { s1 with audio_slot := none }) := by
  obtain ⟨hh, he, hp, hc, hi, hl, hsv, hsl⟩ := s1
  simp only at h
  subst h
  rfl

theorem main_dispatch_config (inp : Inputs) (s1 : AppState) (he : inp.end_clicked = false) :
    (main_dispatch inp s1).state.exam_config = s1.exam_config := by
  obtain ⟨f1, f2, f3, f4, f5, f6, f7, f8⟩ := s1
  unfold main_dispatch
  cases f2
  case setting =>
    rcases main_setting_spec inp ⟨f1, ExamState.setting, f3, f4, f5, f6, f7, none⟩ with
      ⟨m, hm⟩ | ⟨cefr, hm⟩ <;> rw [hm]
    · rw [stage_out_ok]
    · rw [stage_out_error]
      exact (start_session_fields inp _ cefr).2.2.2.1
  case interview =>
    rcases main_interview_spec inp ⟨f1, ExamState.interview, f3, f4, f5, f6, f7, f8⟩ with
      ⟨s3, m, hm, _, _, _, _, e, _, _⟩ | ⟨s3, hm, _, _, _, _, e, _, _, _⟩ |
      ⟨s3, hm, _, _, _, _, e, _, _, _⟩ <;> rw [hm]
    · rw [stage_out_ok]; exact e
    · rw [stage_out_error]; exact e
    · rw [stage_out_error]; exact e
  case finished =>
    rcases main_finished_spec inp ⟨f1, ExamState.finished, f3, f4, f5, f6, f7, none⟩ with
      ⟨b, m, calls, rows, hm⟩ | ⟨m, calls, rows, hm, hend⟩
    · rw [hm, stage_out_ok]
    · rw [he] at hend
      cases hend

theorem main_finished_saved_out (inp : Inputs) (s1 : AppState) (h : s1.saved = true) :
    (stage_out (main_finished inp s1)).save_calls = 0 ∧
    (stage_out (main_finished inp s1)).rows = [] := by
  unfold main_finished
  simp [h]
  split <;> simp [stage_out_ok, stage_out_error]

theorem main_finished_rows_saved (inp : Inputs) (s1 : AppState) :
    (stage_out (main_finished inp s1)).rows ≠ [] →
    (stage_out (main_finished inp s1)).state.saved = true ∨
    (stage_out (main_finished inp s1)).state = initState := by
  unfold main_finished
  repeat' split
  all_goals simp_all [stage_out_ok, stage_out_error]

theorem run_saved_no_call (inp : Inputs) (s : AppState)
    (hf : s.exam_state = ExamState.finished) (hsv : s.saved = true) :
    (run_script inp s).save_calls = 0 ∧ (run_script inp s).rows = [] := by
  rcases sidebar_spec inp s with hs | hs | hs | ⟨m, hs⟩ | ⟨f, hs⟩
  · obtain ⟨h1, h2, h3, h4⟩ := run_script_of_sidebar_ok inp s _ hs
    dsimp only at h2 h3
    rw [h2, h3, main_dispatch_finished inp { s with exam_config := practice_config } hf]
    exact main_finished_saved_out inp _ hsv
  · obtain ⟨h1, h2, h3, h4⟩ := run_script_of_sidebar_ok inp s _ hs
    dsimp only at h2 h3
    rw [h2, h3, main_dispatch_finished inp s hf]
    exact main_finished_saved_out inp _ hsv
  · obtain ⟨h1, h2, h3, h4⟩ := run_script_of_sidebar_ok inp s _ hs
    dsimp only at h2 h3
    rw [h2, h3, main_dispatch_finished inp s hf]
    exact main_finished_saved_out inp _ hsv
  · rw [run_script_of_sidebar_error inp s _ hs]
    exact ⟨rfl, rfl⟩
  · rw [run_script_of_sidebar_error inp s _ hs]
    exact ⟨rfl, rfl⟩

theorem run_rows_imp_saved (inp : Inputs) (s : AppState)
    (hf : s.exam_state = ExamState.finished) :
    (run_script inp s).rows ≠ [] →
    (run_script inp s).state.saved = true ∨ (run_script inp s).state = initState := by
  rcases sidebar_spec inp s with hs | hs | hs | ⟨m, hs⟩ | ⟨f, hs⟩
  · obtain ⟨h1, h2, h3, h4⟩ := run_script_of_sidebar_ok inp s _ hs
    dsimp only at h1 h3
    rw [h1, h3, main_dispatch_finished inp { s with exam_config := practice_config } hf]
    exact main_finished_rows_saved inp _
  · obtain ⟨h1, h2, h3, h4⟩ := run_script_of_sidebar_ok inp s _ hs
    dsimp only at h1 h3
    rw [h1, h3, main_dispatch_finished inp s hf]
    exact main_finished_rows_saved inp _
  · obtain ⟨h1, h2, h3, h4⟩ := run_script_of_sidebar_ok inp s _ hs
    dsimp only at h1 h3
    rw [h1, h3, main_dispatch_finished inp s hf]
    exact main_finished_rows_saved inp _
  · rw [run_script_of_sidebar_error inp s _ hs]
    intro h
    exact absurd rfl h
  · rw [run_script_of_sidebar_error inp s _ hs]
    intro h
    exact absurd rfl h

/-! Claim theorems. -/



/-- C1: the claim says a stale recording left over from a previous phase is
discarded (audio slot keyed by the phase cursor).  The source widget has no
such key: the recording submitted for phase 0 is retained across the
automatic rerun and reprocessed as the phase-1 answer, yielding TWO student
turns from one recording instead of exactly one. -/
theorem C1_stale_audio_reprocessed :
    countStudent c1_run1.state.history = 1 ∧
    c1_run1.state.phase_index = 1 ∧
    c1_run1.state.audio_slot = some "audio-0" ∧
    countStudent c1_run2.state.history = 2 ∧
    c1_run2.state.phase_index = 2 ∧
    c1_run2.state.history.filter (fun t => t.role == Role.student) =
      [⟨Role.student, "はい、そうです", none⟩, ⟨Role.student, "はい、そうです", none⟩] := by
  decide

/-- C2 (amended): the generation function tries the candidates in order,
falls back on any error, never fails, and when every candidate fails it
returns the degraded string embedding the FIRST candidate's error. -/
theorem C2_fallback_chain (backend : String → PromptContent → Except String String)
    (c : PromptContent) :
    (∀ t, backend "gemini-1.5-flash" c = Except.ok t → safe_generate_content backend c = t) ∧
    (∀ e t, backend "gemini-1.5-flash" c = Except.error e →
      backend "gemini-1.5-pro" c = Except.ok t → safe_generate_content backend c = t) ∧
    (∀ e e2, backend "gemini-1.5-flash" c = Except.error e →
      backend "gemini-1.5-pro" c = Except.error e2 →
      safe_generate_content backend c = "生成エラー: " ++ e) := by
  unfold safe_generate_content
  refine ⟨?_, ?_, ?_⟩ <;> intros <;> simp_all

theorem C2_fallback_chain_witness :
    safe_generate_content failBothBackend (PromptContent.text "こんにちは")
      = "生成エラー: flash失敗" :=
  (C2_fallback_chain failBothBackend (PromptContent.text "こんにちは")).2.2
    "flash失敗" "pro失敗" rfl rfl

/-- C2 counterexample: with both candidates failing (first error
flash失敗, last error pro失敗), the fallback string embeds the FIRST
error, not the last one as the claim states. -/
theorem C2_last_error_counterexample :
    safe_generate_content failBothBackend (PromptContent.text "こんにちは")
      = "生成エラー: flash失敗" ∧
    safe_generate_content failBothBackend (PromptContent.text "こんにちは")
      ≠ "生成エラー: pro失敗" := by
  decide

/-- C8: the conversation history embedded in the question prompt is the
in-order concatenation of exactly the examiner and student turns — the
filter keeping examiner/student is the same as the filter excluding grade
turns, the filtered list is a sublist (order preserved) of the full
history, and the question prompt embeds exactly this serialization. -/
theorem C8_history_excludes_grades (history : List Turn) (cefr phase : String)
    (info : StudentInfo) (cfg : ExamConfig) :
    history_text history = String.intercalate "\n"
      ((history.filter (fun h => !(h.role == Role.grade))).map
        (fun h => roleName h.role ++ ": " ++ h.text)) ∧
    List.Sublist
      (history.filter (fun h => h.role == Role.examiner || h.role == Role.student))
      history ∧
    opi_prompt cefr phase history info cfg
      = opi_prompt_head cefr phase info cfg ++ history_text history
        ++ opi_prompt_tail phase := by
  refine ⟨?_, List.filter_sublist _, rfl⟩
  have hfun : (fun h : Turn => h.role == Role.examiner || h.role == Role.student)
      = (fun h : Turn => !(h.role == Role.grade)) := by
    funext h
    cases hr : h.role <;> rfl
  unfold history_text
  rw [hfun]

/-- C10 (amended): with the practice configuration (no sheet URL stored),
`save_result` always fails and never appends a row; when GCP credentials
are available the error is the URL-not-configured message (without them it
fails even earlier, with the authentication error). -/
theorem C10_practice_mode_never_persists (creds : Bool)
    (open_sheet : String → Except String Unit)
    (backend : String → PromptContent → Except String String)
    (persist : String → List String → Except String Unit)
    (now : String) (info : StudentInfo) (level : String) (history : List Turn) :
    practice_config.sheet_url = none ∧
    (save_result creds open_sheet backend persist now info level practice_config history).1.1
      = false ∧
    (save_result creds open_sheet backend persist now info level practice_config history).2
      = none ∧
    (creds = true →
      (save_result creds open_sheet backend persist now info level practice_config history).1.2
        = url_error_msg) := by
  unfold save_result practice_config
  cases creds <;> simp

theorem C10_witness :
    (save_result true (fun _ => Except.ok ()) okBackend (fun _ _ => Except.ok ())
        "2026-10-12 00:00" ⟨"山田 花子", "2年A組", "L2025-001"⟩ "A2" practice_config []).1.2
      = url_error_msg :=
  (C10_practice_mode_never_persists true (fun _ => Except.ok ()) okBackend
    (fun _ _ => Except.ok ()) "2026-10-12 00:00" ⟨"山田 花子", "2年A組", "L2025-001"⟩
    "A2" []).2.2.2 rfl

/-- C10 counterexample: without GCP credentials the failure message for a
URL-less configuration is the authentication error, not the URL error the
claim promises for every such configuration. -/
theorem C10_auth_error_counterexample :
    (save_result false (fun _ => Except.ok ()) okBackend (fun _ _ => Except.ok ())
        "2026-10-12 00:00" ⟨"山田 花子", "2年A組", "L2025-001"⟩ "A2" practice_config []).1.2
      = "認証エラー" ∧
    "認証エラー" ≠ url_error_msg := by
  decide

/-- C6: an exam-settings submission with an empty spreadsheet URL is
rejected with a visible error and leaves the stored configuration
untouched; with a non-empty URL the full configuration (is_exam, year,
type, class, level, sheet URL) is stored, the history is cleared and the
session returns to the setting state. -/
theorem C6_exam_form_validation (inp : Inputs) (s : AppState) (f : ExamForm)
    (hm : inp.mode_exam = true) (hp : inp.pwd_ok = true)
    (hf : inp.form_submit = some f)
    (hr : inp.reset_clicked = false) (he : inp.end_clicked = false) :
    (f.sheet_url = "" →
      (run_script inp s).state.exam_config = s.exam_config ∧
      "URLを入力してください" ∈ (run_script inp s).msgs) ∧
    (f.sheet_url ≠ "" →
      (run_script inp s).state.exam_config =
        { is_exam := true
          year := some f.year
          etype := some f.etype
          cls := some f.cls
          level := some f.level
          sheet_url := some f.sheet_url } ∧
      (run_script inp s).state.history = [] ∧
      (run_script inp s).state.exam_state = ExamState.setting) := by
  constructor
  · intro hurl
    have hsb := sidebar_form_empty inp s f hm hp hf hurl hr
    obtain ⟨h1, h2, h3, h4⟩ := run_script_of_sidebar_ok inp s _ hsb
    dsimp only at h1 h4
    constructor
    · rw [h1, main_dispatch_config inp s he]
    · rw [h4]
      exact List.mem_append_left _ (List.mem_singleton.mpr rfl)
  · intro hurl
    have hsb := sidebar_form_valid inp s f hm hp hf hurl
    rw [run_script_of_sidebar_error inp s _ hsb]
    exact ⟨rfl, rfl, rfl⟩

theorem C6_witness :
    ((run_script examFormEmptyInputs initState).state.exam_config = initState.exam_config ∧
      "URLを入力してください" ∈ (run_script examFormEmptyInputs initState).msgs) ∧
    (run_script examFormValidInputs initState).state.history = [] ∧
    (run_script examFormValidInputs initState).state.exam_config.sheet_url
      = some "https://docs.google.com/spreadsheets/d/abc" :=
  ⟨(C6_exam_form_validation examFormEmptyInputs initState emptyUrlForm
      rfl rfl rfl rfl rfl).1 rfl,
   ((C6_exam_form_validation examFormValidInputs initState fullForm
      rfl rfl rfl rfl rfl).2 (by decide)).2.1,
   by
     rw [((C6_exam_form_validation examFormValidInputs initState fullForm
       rfl rfl rfl rfl rfl).2 (by decide)).1]
     rfl⟩


/-- C5: when the speech-to-text step yields an empty or failed transcript
on an answer cycle, no Turn is appended, the phase cursor stays put, the
session remains in the interview state with the same examiner turn
pending, and the recognition error is surfaced so a new recording can be
submitted. -/
theorem C5_empty_transcript_no_state_change (inp : Inputs) (s : AppState) (a : String)
    (hi : s.exam_state = ExamState.interview)
    (hl : pending_question s = true)
    (ha : audio_val inp s = some a)
    (hr : inp.reset_clicked = false) (hfs : inp.form_submit = none)
    (hff : inp.ffmpeg_ok = true)
    (ht : truthy (speech_to_text inp.gcp_creds inp.recognize a).fst = false) :
    (run_script inp s).state.history = s.history ∧
    (run_script inp s).state.phase_index = s.phase_index ∧
    (run_script inp s).state.exam_state = ExamState.interview ∧
    (run_script inp s).state.history.getLast? = s.history.getLast? ∧
    ("音声認識エラー: " ++ optStr (speech_to_text inp.gcp_creds inp.recognize a).snd)
      ∈ (run_script inp s).msgs := by
  rw [run_script_interview inp s hi hr hfs]
  have hp : pending_question (radio_state inp s) = true := by
    rw [pending_question_congr (radio_state inp s) s (radio_state_fields inp s).2.2.1]
    exact hl
  have hav : audio_val inp (radio_state inp s) = some a := by
    rw [audio_val_congr inp (radio_state inp s) s (radio_state_fields inp s).2.2.2.2.1]
    exact ha
  unfold main_interview
  rw [hp]
  simp only [if_true]
  rw [hav]
  simp only []
  unfold process_answer
  rw [hff]
  simp only [Bool.not_true, Bool.false_eq_true, if_false]
  rw [if_neg (by rw [ht]; simp)]
  rw [stage_out_ok]
  obtain ⟨e1, e2, e3, _, _, _, _, _, _⟩ := radio_state_fields inp s
  refine ⟨e3, e2, ?_, ?_, ?_⟩
  · rw [show ({ radio_state inp s with audio_slot := some a } : AppState).exam_state
        = (radio_state inp s).exam_state from rfl, e1, hi]
  · rw [show ({ radio_state inp s with audio_slot := some a } : AppState).history
        = (radio_state inp s).history from rfl, e3]
  · exact List.mem_singleton.mpr rfl

theorem C5_witness :
    (run_script sttFailInputs interviewState0).state.history = interviewState0.history ∧
    (run_script sttFailInputs interviewState0).state.phase_index
      = interviewState0.phase_index :=
  ⟨(C5_empty_transcript_no_state_change sttFailInputs interviewState0 "audio-x"
      rfl (by decide) rfl rfl rfl rfl (by decide)).1,
   (C5_empty_transcript_no_state_change sttFailInputs interviewState0 "audio-x"
      rfl (by decide) rfl rfl rfl rfl (by decide)).2.1⟩



/-- C4 counterexample: with an exam session mid-interview (two completed
turn pairs in the log, cursor at 1), selecting the practice-mode radio
replaces the configuration but leaves the history and the phase cursor
untouched, contradicting the claimed reset. -/
theorem C4_mode_switch_counterexample :
    examMidState.exam_config.is_exam = true ∧
    examMidState.exam_state = ExamState.interview ∧
    examMidState.history ≠ [] ∧
    (run_script baseInputs examMidState).state.exam_config.is_exam = false ∧
    (run_script baseInputs examMidState).state.history = examMidState.history ∧
    (run_script baseInputs examMidState).state.phase_index = 1 := by
  decide

/-- C4 (amended): switching exam → practice replaces the configuration by
the practice literal but leaves the history log and the phase cursor
unchanged; switching practice → exam through the admin form clears the
history and returns to the setting state but leaves the phase cursor
unchanged (it is only reset to 0 when a new session starts). -/
theorem C4_mode_switch (s : AppState) (inp : Inputs) (f : ExamForm) :
    (inp.mode_exam = false → inp.reset_clicked = false → inp.start_clicked = false →
      inp.new_audio = none → s.audio_slot = none → inp.end_clicked = false →
      (run_script inp s).state.exam_config = practice_config ∧
      (run_script inp s).state.history = s.history ∧
      (run_script inp s).state.phase_index = s.phase_index) ∧
    (inp.mode_exam = true → inp.pwd_ok = true → inp.form_submit = some f →
      f.sheet_url ≠ "" →
      (run_script inp s).state.history = [] ∧
      (run_script inp s).state.phase_index = s.phase_index ∧
      (run_script inp s).state.exam_state = ExamState.setting ∧
      (run_script inp s).state.exam_config.is_exam = true) := by
  constructor
  · intro h1 h2 h3 h4 h5 h6
    have hsb := sidebar_practice inp s h1 h2
    obtain ⟨e1, e2, e3, e4⟩ := run_script_of_sidebar_ok inp s _ hsb
    dsimp only at e1
    rw [e1]
    obtain ⟨g1, g2, g3, g4, g5, g6, g7, g8⟩ := s
    simp only at h5
    subst h5
    unfold main_dispatch
    cases g2 <;> dsimp only
    case setting =>
      obtain ⟨m, hm⟩ := main_setting_no_start inp
        ⟨g1, ExamState.setting, g3, practice_config, g5, g6, g7, none⟩ h3
      rw [hm, stage_out_ok]
      exact ⟨rfl, rfl, rfl⟩
    case interview =>
      have hav : audio_val inp
          ⟨g1, ExamState.interview, g3, practice_config, g5, g6, g7, none⟩ = none := by
        unfold audio_val
        rw [h4]
      rw [main_interview_no_audio inp _ hav, stage_out_ok]
      exact ⟨rfl, rfl, rfl⟩
    case finished =>
      rcases main_finished_spec inp
          ⟨g1, ExamState.finished, g3, practice_config, g5, g6, g7, none⟩ with
        ⟨b, m, calls, rows, hm⟩ | ⟨m, calls, rows, hm, hend⟩
      · rw [hm, stage_out_ok]
        exact ⟨rfl, rfl, rfl⟩
      · rw [h6] at hend
        cases hend
  · intro h1 h2 h3 h4
    have hsb := sidebar_form_valid inp s f h1 h2 h3 h4
    rw [run_script_of_sidebar_error inp s _ hsb]
    exact ⟨rfl, rfl, rfl, rfl⟩

theorem C4_mode_switch_witness :
    (run_script baseInputs examMidState).state.exam_config = practice_config ∧
    (run_script examFormValidInputs examMidState).state.history = [] ∧
    (run_script examFormValidInputs examMidState).state.phase_index
      = examMidState.phase_index :=
  ⟨((C4_mode_switch examMidState baseInputs fullForm).1 rfl rfl rfl rfl rfl rfl).1,
   ((C4_mode_switch examMidState examFormValidInputs fullForm).2
      rfl rfl rfl (by decide)).1,
   ((C4_mode_switch examMidState examFormValidInputs fullForm).2
      rfl rfl rfl (by decide)).2.1⟩



theorem main_finished_unsaved_ok (inp : Inputs) (s1 : AppState)
    (h : s1.saved = false) (hok : (save_attempt inp s1).1.1 = true) :
    main_finished inp s1 =
      (if inp.end_clicked then
        Except.error ⟨initState, ["✅ データが送信されました"], 1, (save_attempt inp s1).2.toList⟩
      else
        Except.ok ⟨{ s1 with saved := true }, ["✅ データが送信されました"], 1,
          (save_attempt inp s1).2.toList⟩) := by
  unfold main_finished
  simp [h, hok]

theorem main_finished_unsaved_fail (inp : Inputs) (s1 : AppState)
    (h : s1.saved = false) (hok : (save_attempt inp s1).1.1 = false) :
    main_finished inp s1 =
      (if inp.end_clicked then
        Except.error ⟨initState, ["保存エラー: " ++ (save_attempt inp s1).1.2], 1, []⟩
      else
        Except.ok ⟨s1, ["保存エラー: " ++ (save_attempt inp s1).1.2], 1, []⟩) := by
  unfold main_finished
  simp [h, hok]

/-- C3 (amended): the saved flag is set exactly on successful persistence;
once it is set, re-entering the Finished state performs no further save
call (so a SUCCESSFUL persistence happens at most once per session); a
persistence failure is surfaced as a visible 保存エラー message, leaves
the flag unset — so a later re-entry of Finished retries the save, unlike
the claim's never-retried guarantee — and does not block returning to the
start screen via the end button. -/
theorem C3_saved_flag (s : AppState) (inp inp2 : Inputs) :
    (s.exam_state = ExamState.finished → s.saved = true →
      (run_script inp s).save_calls = 0 ∧ (run_script inp s).rows = []) ∧
    (s.exam_state = ExamState.finished → s.saved = false →
      inp.reset_clicked = false → inp.form_submit = none →
      (run_script inp s).save_calls = 1 ∧
      ((save_attempt inp (finish_state inp s)).1.1 = true →
        (run_script inp s).state.saved = true ∨ (run_script inp s).state = initState) ∧
      ((save_attempt inp (finish_state inp s)).1.1 = false →
        (run_script inp s).state.saved = false ∧
        ("保存エラー: " ++ (save_attempt inp (finish_state inp s)).1.2)
          ∈ (run_script inp s).msgs ∧
        (run_script inp s).rows = []) ∧
      (inp.end_clicked = true → (run_script inp s).state = initState)) ∧
    (s.exam_state = ExamState.finished → (run_script inp s).rows ≠ [] →
      (run_script inp s).state.exam_state = ExamState.finished →
      (run_script inp2 (run_script inp s).state).save_calls = 0) := by
  refine ⟨fun hf hsv => run_saved_no_call inp s hf hsv, ?_, ?_⟩
  · intro hf hsv hr hfs
    rw [run_script_finished inp s hf hr hfs]
    have hsv1 : (finish_state inp s).saved = false := by
      rw [show (finish_state inp s).saved = (radio_state inp s).saved from rfl,
        (radio_state_fields inp s).2.2.2.1]
      exact hsv
    by_cases hok : (save_attempt inp (finish_state inp s)).1.1 = true
    · rw [main_finished_unsaved_ok inp _ hsv1 hok]
      by_cases hend : inp.end_clicked = true
      · rw [if_pos hend, stage_out_error]
        exact ⟨rfl, fun _ => Or.inr rfl,
          fun hbad => absurd hok (by rw [hbad]; simp), fun _ => rfl⟩
      · rw [if_neg hend, stage_out_ok]
        exact ⟨rfl, fun _ => Or.inl rfl,
          fun hbad => absurd hok (by rw [hbad]; simp), fun hbad => absurd hbad hend⟩
    · have hok2 : (save_attempt inp (finish_state inp s)).1.1 = false := by
        revert hok
        cases (save_attempt inp (finish_state inp s)).1.1 <;> simp
      rw [main_finished_unsaved_fail inp _ hsv1 hok2]
      by_cases hend : inp.end_clicked = true
      · rw [if_pos hend, stage_out_error]
        exact ⟨rfl, fun hbad => absurd hbad hok,
          fun _ => ⟨rfl, List.mem_singleton.mpr rfl, rfl⟩, fun _ => rfl⟩
      · rw [if_neg hend, stage_out_ok]
        exact ⟨rfl, fun hbad => absurd hbad hok,
          fun _ => ⟨hsv1, List.mem_singleton.mpr rfl, rfl⟩, fun hbad => absurd hbad hend⟩
  · intro hf hrows hfin2
    rcases run_rows_imp_saved inp s hf hrows with hsv | hinit
    · exact (run_saved_no_call inp2 _ hfin2 hsv).1
    · rw [hinit] at hfin2
      exact absurd hfin2 (by decide)

/-- C3 counterexample: an unsaved finished session whose spreadsheet
append fails makes one save submission per run — re-entering the Finished
state on the next run submits again, so the failed save IS retried and
no session-local flag prevents the second submission. -/
theorem C3_retry_counterexample :
    (run_script failPersistInputs finishedState0).save_calls = 1 ∧
    (run_script failPersistInputs finishedState0).rows = [] ∧
    (run_script failPersistInputs finishedState0).state.saved = false ∧
    (run_script failPersistInputs finishedState0).state.exam_state = ExamState.finished ∧
    (run_script failPersistInputs
        (run_script failPersistInputs finishedState0).state).save_calls = 1 := by
  decide

theorem C3_saved_flag_witness :
    (run_script failPersistInputs finishedState0).save_calls = 1 ∧
    (run_script baseInputs { finishedState0 with saved := true }).save_calls = 0 :=
  ⟨((C3_saved_flag finishedState0 failPersistInputs baseInputs).2.1
      rfl rfl rfl rfl).1,
   ((C3_saved_flag { finishedState0 with saved := true } baseInputs baseInputs).1
      rfl rfl).1⟩



/-- C7: in every reachable state the phase cursor is bounded by the
schedule length and equals it exactly in the Finished state (reaching the
bound is necessary for Finished); each script run leaves the cursor
unchanged, increments it by exactly 1, or resets it to 0 (never any other
decrement); the cursor is 0 whenever the interview begins; an increment
happens only in the interview state and comes with exactly one new
student turn; and an interview run that brings the cursor to the schedule
length lands in the Finished state (reaching the bound is sufficient). -/
theorem C7_phase_cursor (s : AppState) (hs : Reachable s) :
    s.phase_index ≤ PHASE_ORDER.length ∧
    (s.exam_state = ExamState.interview → s.phase_index < PHASE_ORDER.length) ∧
    (s.exam_state = ExamState.finished → s.phase_index = PHASE_ORDER.length) ∧
    ∀ inp : Inputs,
      ((run_script inp s).state.phase_index = s.phase_index ∨
        (run_script inp s).state.phase_index = s.phase_index + 1 ∨
        (run_script inp s).state.phase_index = 0) ∧
      (s.exam_state ≠ ExamState.interview →
        (run_script inp s).state.exam_state = ExamState.interview →
        (run_script inp s).state.phase_index = 0) ∧
      ((run_script inp s).state.phase_index = s.phase_index + 1 →
        s.exam_state = ExamState.interview ∧
        countStudent (run_script inp s).state.history = countStudent s.history + 1) ∧
      (s.exam_state = ExamState.interview →
        (run_script inp s).state.phase_index = PHASE_ORDER.length →
        (run_script inp s).state.exam_state = ExamState.finished) := by
  obtain ⟨h1, h2, h3⟩ := inv_reachable hs
  refine ⟨h1, h2, h3, fun inp => ?_⟩
  obtain ⟨a, b, c, d⟩ := step_shape inp s
  exact ⟨a, b, c, fun hint hlen => d hint (h2 hint) hlen⟩

theorem C7_phase_cursor_witness :
    initState.phase_index ≤ PHASE_ORDER.length ∧
    ((run_script startInputs initState).state.phase_index = initState.phase_index ∨
      (run_script startInputs initState).state.phase_index = initState.phase_index + 1 ∨
      (run_script startInputs initState).state.phase_index = 0) :=
  ⟨(C7_phase_cursor initState Reachable.init).1,
   ((C7_phase_cursor initState Reachable.init).2.2.2 startInputs).1⟩

/-- C9: in every reachable state that renders the interview screen, the
phase cursor is strictly below the schedule length, so the phase-list
lookup of line 305 (and the guarded lookup of line 353) is in bounds and
the displayed phase caption exists. -/
theorem C9_phase_indexing_safe (s : AppState) (hs : Reachable s)
    (hi : s.exam_state = ExamState.interview) :
    s.phase_index < PHASE_ORDER.length ∧
    (PHASE_ORDER.get? s.phase_index).isSome ∧
    (interview_phase_caption s).isSome := by
  have h2 := (inv_reachable hs).2.1 hi
  have hg : PHASE_ORDER.get? s.phase_index = some (PHASE_ORDER.get ⟨s.phase_index, h2⟩) :=
    List.get?_eq_get h2
  refine ⟨h2, ?_, ?_⟩
  · rw [hg]
    rfl
  · unfold interview_phase_caption
    rw [hg]
    rfl

theorem C9_phase_indexing_safe_witness :
    (run_script startInputs initState).state.exam_state = ExamState.interview ∧
    (run_script startInputs initState).state.phase_index < PHASE_ORDER.length :=
  ⟨by decide,
   (C9_phase_indexing_safe (run_script startInputs initState).state
      (Reachable.step startInputs Reachable.init) (by decide)).1⟩

end ExamBot
